/-
Verification of the photo-organizer repository against its specification.

Shallow embedding of `classifier.py` (the Decision Engine:
`HomeworkImageClassifier.is_homework_related` and `classify_batch`),
`config.py` (configuration constants) and `organizer.py` (the Orchestration
Engine: `PhotoOrganizer.organize_photos` with its helpers
`get_image_files` / `create_homework_folder`).

Modelling decisions:
* Python floats become `Rat` (the claims only compare and copy confidences;
  no float rounding is involved in any claim).
* The external classifier model and PIL are collaborators: an image is
  represented by its decoded top-K predictions and by its grayscale pixel
  variance, the latter an `Option Rat` (`none` = the `Image.open` /
  `convert` / `np.var` block raises, which the source swallows).
* A candidate whose classifier invocation raises is an explicit
  `ClassifierOutcome.failure`; `is_homework_related` itself returns
  `Option Verdict`, `none` modelling the `IndexError` raised by
  `decoded_predictions[0]` on an empty prediction list (caught by
  `classify_batch`).
* The filesystem is a list of directory entries plus a per-path oracle
  saying whether `shutil.move` succeeds; the statistics dictionary is an
  association list `List (String × Nat)` so that the difference between the
  three-key early return and the four-key main return is visible.
-/

import Mathlib

namespace PhotoOrganizer

/-! ### Strings: lower-casing and substring containment

Python's `str.lower()` on the ASCII labels involved, and Python's
`keyword in class_name_lower` substring test. -/

/-- ASCII lower-casing of a string, character by character
(Python `str.lower()` on the ASCII ImageNet labels). -/
def lowerStr (s : String) : String := ⟨s.data.map Char.toLower⟩

/-- `containsSub hay needle = true` iff `needle` occurs as a contiguous
sublist of `hay` (Python `needle in hay`). -/
def containsSub (hay needle : List Char) : Bool :=
  (List.range (hay.length + 1)).any fun i => needle.isPrefixOf (hay.drop i)

/-- Python substring test `needle in hay` on strings. -/
def strContains (hay needle : String) : Bool := containsSub hay.data needle.data

/-! ### `config.py` -/

/-- `config.py`: `CONFIDENCE_THRESHOLD = 0.3`. -/
def CONFIDENCE_THRESHOLD : Rat := 3/10

/-- `config.py`: `HOMEWORK_KEYWORDS` (20 entries). -/
def HOMEWORK_KEYWORDS : List String :=
  ["notebook", "book", "paper", "pen", "pencil", "desk",
   "monitor", "screen", "keyboard", "laptop", "computer",
   "whiteboard", "blackboard", "chalkboard", "book_jacket",
   "pencil_box", "binder", "calculator",
   "web_site",
   "menu"]

/-- `config.py`: `VARIANCE_THRESHOLD = 5000`. -/
def VARIANCE_THRESHOLD : Rat := 5000

/-- `config.py`: `SUPPORTED_FORMATS`. -/
def SUPPORTED_FORMATS : List String :=
  [".jpg", ".jpeg", ".png", ".bmp", ".gif", ".webp"]

/-! ### `classifier.py`: the Decision Engine -/

/-- `classifier.py`: `DOCUMENT_HEURISTIC_CONFIDENCE = 0.5`. -/
def DOCUMENT_HEURISTIC_CONFIDENCE : Rat := 1/2

/-- `classifier.py`, `HomeworkImageClassifier.__init__`:
`self.homework_keywords` — the hardcoded 18-entry list (note: this is a
separate literal from `config.HOMEWORK_KEYWORDS`). -/
def homework_keywords : List String :=
  ["notebook", "book", "paper", "pen", "pencil", "desk",
   "monitor", "screen", "keyboard", "laptop", "computer",
   "whiteboard", "blackboard", "chalkboard", "book_jacket",
   "pencil_box", "binder", "calculator"]

/-- One entry of `decode_predictions(...)[0]`: a `(class_name, confidence)`
pair (the ImageNet class id in the Python tuple is ignored by the code). -/
structure DecodedPrediction where
  label : String
  confidence : Rat
deriving DecidableEq, Repr

/-- The Decision Engine's verdict: the tuple
`(is_homework, confidence, top_prediction)` returned by
`is_homework_related`. -/
structure Verdict where
  isTarget : Bool
  confidence : Rat
  reason : String
deriving DecidableEq, Repr

/-- The per-image signals the Decision Engine consumes: the decoded ranked
predictions, and the grayscale pixel variance (`none` when the
`Image.open`/`convert`/`np.var` block raises — swallowed by the source's
`try`/`except`). -/
structure ImageData where
  decoded_predictions : List DecodedPrediction
  pixel_variance : Option Rat
deriving DecidableEq, Repr

/-- Inner loop of `is_homework_related` step 1: does some keyword of
`keywords` occur in the lower-cased label? -/
def label_matches (keywords : List String) (label : String) : Bool :=
  keywords.any fun kw => strContains (lowerStr label) kw

/-- Outer loop of `is_homework_related` step 1: scan the ranked predictions
in order; return the first one whose lower-cased label contains some
keyword. -/
def scan_predictions (keywords : List String) :
    List DecodedPrediction → Option DecodedPrediction
  | [] => none
  | p :: rest =>
      if label_matches keywords p.label then some p
      else scan_predictions keywords rest

/-- Body of `HomeworkImageClassifier.is_homework_related`, parametrised by
the keyword list it scans with (the source always passes
`self.homework_keywords`; the parametrisation lets us compare against the
configuration list).  `none` models the `IndexError` of
`decoded_predictions[0]` on an empty prediction list. -/
def is_homework_related_core (keywords : List String) (img : ImageData) :
    Option Verdict :=
  match scan_predictions keywords img.decoded_predictions with
  | some p => some ⟨true, p.confidence, p.label⟩
  | none =>
      let heuristicHit : Bool :=
        match img.pixel_variance with
        | some v => v > VARIANCE_THRESHOLD
        | none => false
      if heuristicHit then
        some ⟨true, DOCUMENT_HEURISTIC_CONFIDENCE, "document_heuristic"⟩
      else
        match img.decoded_predictions with
        | [] => none
        | p0 :: _ => some ⟨false, p0.confidence, p0.label⟩

/-- `HomeworkImageClassifier.is_homework_related(img_path, threshold=0.3)`.
The `threshold` parameter is declared by the source but never read in the
body. -/
def is_homework_related (img : ImageData) (threshold : Rat) :
    Option Verdict :=
  is_homework_related_core homework_keywords img

/-! ### `classifier.py`: `classify_batch` -/

/-- What the classifier collaborator does on one path: either the whole
`is_homework_related` call raises (`failure`: unreadable file, model or
decode error), or it runs on decoded image data (`ok`). -/
inductive ClassifierOutcome where
  | ok (img : ImageData)
  | failure
deriving DecidableEq, Repr

/-- One element of `classify_batch`'s result list:
`(image_path, is_homework, confidence, prediction)`. -/
structure ClassifyRecord where
  path : String
  is_homework : Bool
  confidence : Rat
  prediction : String
deriving DecidableEq, Repr

/-- One iteration of `classify_batch`'s loop: the `try` block on success,
the `except` branch recording `(path, False, 0.0, "error")` on any raise
(including the empty-predictions `IndexError` inside
`is_homework_related`). -/
def classify_one : String × ClassifierOutcome → ClassifyRecord
  | (path, ClassifierOutcome.failure) => ⟨path, false, 0, "error"⟩
  | (path, ClassifierOutcome.ok img) =>
      match is_homework_related img (3/10) with
      | some v => ⟨path, v.isTarget, v.confidence, v.reason⟩
      | none => ⟨path, false, 0, "error"⟩

/-- `HomeworkImageClassifier.classify_batch`. -/
def classify_batch (inputs : List (String × ClassifierOutcome)) :
    List ClassifyRecord :=
  inputs.map classify_one

/-! ### `organizer.py`: the Orchestration Engine -/

/-- `pathlib.PurePath.suffix`: the last dot-suffix of a base name, empty
when the only dot is leading or trailing or there is none (CPython:
`i = name.rfind(.); return name[i:] if 0 < i < len(name)-1 else ""`,
where the dot is the searched character). -/
def lastIndexOf (c : Char) : List Char → Option Nat
  | [] => none
  | x :: xs =>
      match lastIndexOf c xs with
      | some i => some (i + 1)
      | none => if x = c then some 0 else none

/-- `Path(name).suffix` for a base name. -/
def path_suffix (name : String) : String :=
  let cs := name.data
  match lastIndexOf '.' cs with
  | some i => if 0 < i ∧ i < cs.length - 1 then ⟨cs.drop i⟩ else ""
  | none => ""

/-- One direct child of the source directory, together with the behaviour
of the external collaborators at that path: what the classifier does if
invoked on it (`outcome`). `name` stands for the path (base names are
unique within one directory). -/
structure Candidate where
  name : String
  isFile : Bool
  outcome : ClassifierOutcome
deriving DecidableEq, Repr

/-- `PhotoOrganizer.__init__`: `self.image_extensions` (a set literal with
the same six lowercase extensions as `config.SUPPORTED_FORMATS`). -/
def image_extensions : List String :=
  [".jpg", ".jpeg", ".png", ".bmp", ".gif", ".webp"]

/-- `PhotoOrganizer.get_image_files`: keep the direct children that are
regular files whose lower-cased suffix is a supported extension. -/
def get_image_files (entries : List Candidate) : List Candidate :=
  entries.filter fun c =>
    c.isFile && image_extensions.contains (lowerStr (path_suffix c.name))

/-- Accumulated effect of the organization loop of `organize_photos`: the
three mutable counters (`stats["homework"]`, `stats["regular"]`,
`stats["errors"]`) plus the list of source paths actually moved into the
destination directory. -/
structure ApplyAcc where
  homework : Nat
  regular : Nat
  errors : Nat
  moved : List String
deriving DecidableEq, Repr

/-- The `for img_path, is_homework, confidence, prediction in results:`
loop of `organize_photos`. `moveOk p` says whether `shutil.move` on path
`p` succeeds (its failure is caught and counted in `stats["errors"]`);
under `dry_run` no move is attempted. -/
def apply_results (dry_run : Bool) (moveOk : String → Bool) :
    List ClassifyRecord → ApplyAcc
  | [] => ⟨0, 0, 0, []⟩
  | r :: rest =>
      let acc := apply_results dry_run moveOk rest
      if r.is_homework then
        if dry_run then
          { acc with homework := acc.homework + 1 }
        else if moveOk r.path then
          { acc with homework := acc.homework + 1, moved := r.path :: acc.moved }
        else
          { acc with homework := acc.homework + 1, errors := acc.errors + 1 }
      else
        { acc with regular := acc.regular + 1 }

/-- Observable outcome of one `organize_photos` run: the returned value
(`none` models Python's `return None` on a missing source; otherwise the
statistics dictionary as an ordered association list), whether
`create_homework_folder` ran (`mkdir(parents=True, exist_ok=True)`),
which paths the classifier was invoked on, and which files were moved out
of the source directory. -/
structure OrgOutcome where
  result : Option (List (String × Nat))
  destCreated : Bool
  classified : List String
  moved : List String
deriving DecidableEq, Repr

/-- `PhotoOrganizer.organize_photos(dry_run)`, over an abstract world:
`sourceExists` is `self.source_dir.exists()`, `entries` the direct
children of the source directory, `moveOk` the per-path success of
`shutil.move`. -/
def organize_photos (sourceExists : Bool) (entries : List Candidate)
    (moveOk : String → Bool) (dry_run : Bool) : OrgOutcome :=
  if sourceExists = false then
    { result := none, destCreated := false, classified := [], moved := [] }
  else
    let image_files := get_image_files entries
    if image_files.isEmpty then
      { result := some [("total", 0), ("homework", 0), ("regular", 0)],
        destCreated := true, classified := [], moved := [] }
    else
      let results := classify_batch (image_files.map fun f => (f.name, f.outcome))
      let acc := apply_results dry_run moveOk results
      { result := some [("total", results.length), ("homework", acc.homework),
                        ("regular", acc.regular), ("errors", acc.errors)],
        destCreated := true,
        classified := image_files.map (·.name),
        moved := acc.moved }

/-- The source-directory entries still present after a run: everything not
moved away. -/
def remaining_entries (entries : List Candidate) (moved : List String) :
    List Candidate :=
  entries.filter fun c => !(moved.contains c.name)

/-! ### Helper lemmas about the Decision Engine scan -/

theorem scan_predictions_eq_none (kws : List String)
    (l : List DecodedPrediction)
    (h : ∀ q ∈ l, label_matches kws q.label = false) :
    scan_predictions kws l = none := by
  induction l with
  | nil => rfl
  | cons p rest ih =>
      have hp := h p (by simp)
      simp only [scan_predictions, hp]
      simp only [Bool.false_eq_true, if_false]
      exact ih fun q hq => h q (by simp [hq])

theorem scan_predictions_append (kws : List String)
    (pre l : List DecodedPrediction)
    (h : ∀ q ∈ pre, label_matches kws q.label = false) :
    scan_predictions kws (pre ++ l) = scan_predictions kws l := by
  induction pre with
  | nil => rfl
  | cons p rest ih =>
      have hp := h p (by simp)
      simp only [List.cons_append, scan_predictions, hp]
      simp only [Bool.false_eq_true, if_false]
      exact ih fun q hq => h q (by simp [hq])

/-! ### Claim theorems: the Decision Engine -/

/-- C1: on a non-empty ranked prediction list, the Decision Engine returns,
for the first prediction (in rank order) whose lower-cased label contains
some keyword, `isTarget = true`, that prediction's confidence, and that
label in its original case — so a lower-ranked matching prediction wins
over higher-ranked non-matching ones. -/
theorem C1_first_matching_prediction_wins
    (pre post : List DecodedPrediction) (p : DecodedPrediction)
    (pv : Option Rat) (t : Rat)
    (hpre : ∀ q ∈ pre, label_matches homework_keywords q.label = false)
    (hp : label_matches homework_keywords p.label = true) :
    is_homework_related ⟨pre ++ p :: post, pv⟩ t =
      some ⟨true, p.confidence, p.label⟩ := by
  unfold is_homework_related is_homework_related_core
  simp only [scan_predictions_append homework_keywords pre (p :: post) hpre,
    scan_predictions, hp, if_true]

/-- Witness for C1 at the spec's tie-break example: predictions
`[("dog", 0.9), ("notebook", 0.05)]`, keyword set containing "notebook". -/
theorem C1_witness :
    (∀ q ∈ [DecodedPrediction.mk "dog" (9/10)],
        label_matches homework_keywords q.label = false) ∧
    label_matches homework_keywords "notebook" = true ∧
    is_homework_related ⟨[⟨"dog", 9/10⟩, ⟨"notebook", 1/20⟩], none⟩ (3/10) =
      some ⟨true, 1/20, "notebook"⟩ :=
  ⟨by decide, by decide,
    C1_first_matching_prediction_wins [⟨"dog", 9/10⟩] [] ⟨"notebook", 1/20⟩
      none (3/10) (by decide) (by decide)⟩

/-- C3: with a non-empty prediction list in which no lower-cased label
contains any keyword, a pixel variance strictly above `VARIANCE_THRESHOLD`
yields `isTarget = true`, the fixed `DOCUMENT_HEURISTIC_CONFIDENCE = 1/2`,
and reason `"document_heuristic"`. -/
theorem C3_variance_heuristic
    (preds : List DecodedPrediction) (v t : Rat)
    (hne : preds ≠ [])
    (hnomatch : ∀ q ∈ preds, label_matches homework_keywords q.label = false)
    (hv : v > VARIANCE_THRESHOLD) :
    is_homework_related ⟨preds, some v⟩ t =
      some ⟨true, DOCUMENT_HEURISTIC_CONFIDENCE, "document_heuristic"⟩ := by
  unfold is_homework_related is_homework_related_core
  simp only [scan_predictions_eq_none homework_keywords preds hnomatch, hv]
  simp [hv]

/-- Witness for C3: a single non-matching prediction and variance 6000. -/
theorem C3_witness :
    ([DecodedPrediction.mk "golden_retriever" (9/10)] ≠ []) ∧
    (∀ q ∈ [DecodedPrediction.mk "golden_retriever" (9/10)],
        label_matches homework_keywords q.label = false) ∧
    ((6000 : Rat) > VARIANCE_THRESHOLD) ∧
    is_homework_related ⟨[⟨"golden_retriever", 9/10⟩], some 6000⟩ (3/10) =
      some ⟨true, DOCUMENT_HEURISTIC_CONFIDENCE, "document_heuristic"⟩ :=
  ⟨by decide, by decide, by decide,
    C3_variance_heuristic [⟨"golden_retriever", 9/10⟩] 6000 (3/10)
      (by decide) (by decide) (by decide)⟩

/-- C4: with a non-empty prediction list, no keyword match, and a pixel
variance that is `≤ VARIANCE_THRESHOLD` or cannot be computed at all (the
failure being swallowed), the Decision Engine returns `isTarget = false`
with the top-1 prediction's confidence and label. -/
theorem C4_fallthrough_to_top1
    (p0 : DecodedPrediction) (rest : List DecodedPrediction)
    (pv : Option Rat) (t : Rat)
    (hnomatch : ∀ q ∈ p0 :: rest, label_matches homework_keywords q.label = false)
    (hpv : pv = none ∨ ∃ v, pv = some v ∧ v ≤ VARIANCE_THRESHOLD) :
    is_homework_related ⟨p0 :: rest, pv⟩ t =
      some ⟨false, p0.confidence, p0.label⟩ := by
  unfold is_homework_related is_homework_related_core
  simp only [scan_predictions_eq_none homework_keywords (p0 :: rest) hnomatch]
  rcases hpv with h | ⟨v, hv, hle⟩
  · simp [h]
  · simp [hv, not_lt.mpr hle]

/-- Witness for C4, in both branches of the disjunction: an uncomputable
variance, and a variance exactly at the threshold. -/
theorem C4_witness :
    is_homework_related ⟨[⟨"golden_retriever", 9/10⟩], none⟩ (3/10) =
      some ⟨false, 9/10, "golden_retriever"⟩ ∧
    is_homework_related ⟨[⟨"golden_retriever", 9/10⟩], some 5000⟩ (3/10) =
      some ⟨false, 9/10, "golden_retriever"⟩ :=
  ⟨C4_fallthrough_to_top1 ⟨"golden_retriever", 9/10⟩ [] none (3/10)
      (by decide) (Or.inl rfl),
    C4_fallthrough_to_top1 ⟨"golden_retriever", 9/10⟩ [] (some 5000) (3/10)
      (by decide) (Or.inr ⟨5000, rfl, by decide⟩)⟩

/-- C9: the `threshold` parameter of `is_homework_related` is never read:
any two threshold values give the identical verdict on every image. -/
theorem C9_threshold_unused (img : ImageData) (t₁ t₂ : Rat) :
    is_homework_related img t₁ = is_homework_related img t₂ := rfl

/-- Counterexample to C8: the keyword list the Decision Engine scans with
(`self.homework_keywords`, hardcoded in `HomeworkImageClassifier.__init__`)
is not `config.HOMEWORK_KEYWORDS`, and the difference is observable: a
top-1 label "web_site" is verdicted negative by the engine but would be a
keyword match under the configured list. -/
theorem C8_counterexample :
    homework_keywords ≠ HOMEWORK_KEYWORDS ∧
    is_homework_related ⟨[⟨"web_site", 9/10⟩], none⟩ (3/10) =
      some ⟨false, 9/10, "web_site"⟩ ∧
    is_homework_related_core HOMEWORK_KEYWORDS ⟨[⟨"web_site", 9/10⟩], none⟩ =
      some ⟨true, 9/10, "web_site"⟩ := by
  refine ⟨by decide, rfl, rfl⟩

/-- C8 (amended): the Decision Engine scans its own hardcoded 18-entry
keyword list, which equals the first 18 entries of the configured
`HOMEWORK_KEYWORDS` (in order); the configured entries `"web_site"` and
`"menu"` are absent from it. -/
theorem C8_amended_hardcoded_prefix :
    homework_keywords = HOMEWORK_KEYWORDS.take 18 ∧
    HOMEWORK_KEYWORDS.length = 20 ∧
    "web_site" ∉ homework_keywords ∧ "menu" ∉ homework_keywords := by
  refine ⟨by decide, by decide, by decide, by decide⟩

/-! ### Helper lemmas about the organization loop -/

theorem apply_results_homework_add_regular (dry : Bool) (mo : String → Bool)
    (rs : List ClassifyRecord) :
    (apply_results dry mo rs).homework + (apply_results dry mo rs).regular =
      rs.length := by
  cases dry
  all_goals
    induction rs with
    | nil => rfl
    | cons r rest ih =>
        cases hb : r.is_homework <;> cases hm : mo r.path <;>
          simp [apply_results, hb, hm] <;> omega

theorem apply_results_errors_zero (dry : Bool) (mo : String → Bool)
    (rs : List ClassifyRecord) (hmo : ∀ p, mo p = true) :
    (apply_results dry mo rs).errors = 0 := by
  cases dry
  all_goals
    induction rs with
    | nil => rfl
    | cons r rest ih =>
        cases hb : r.is_homework <;>
          simp [apply_results, hb, hmo r.path, ih]

theorem apply_results_moved_dry (mo : String → Bool)
    (rs : List ClassifyRecord) :
    (apply_results true mo rs).moved = [] := by
  induction rs with
  | nil => rfl
  | cons r rest ih =>
      cases hb : r.is_homework <;> simp [apply_results, hb, ih]

theorem apply_results_moved_sub (dry : Bool) (mo : String → Bool)
    (rs : List ClassifyRecord) (p : String)
    (h : p ∈ (apply_results dry mo rs).moved) :
    dry = false ∧ ∃ r ∈ rs, r.path = p ∧ r.is_homework = true := by
  cases dry
  · refine ⟨rfl, ?_⟩
    induction rs with
    | nil => simp [apply_results] at h
    | cons r rest ih =>
        cases hb : r.is_homework <;> cases hm : mo r.path <;>
          simp only [apply_results] at h <;> simp only [hb, hm] at h <;>
          simp only [Bool.false_eq_true, if_false, if_true] at h
        · obtain ⟨q, hq, h1, h2⟩ := ih h
          exact ⟨q, List.mem_cons_of_mem r hq, h1, h2⟩
        · obtain ⟨q, hq, h1, h2⟩ := ih h
          exact ⟨q, List.mem_cons_of_mem r hq, h1, h2⟩
        · obtain ⟨q, hq, h1, h2⟩ := ih h
          exact ⟨q, List.mem_cons_of_mem r hq, h1, h2⟩
        · rcases List.mem_cons.mp h with hp | hp
          · exact ⟨r, List.mem_cons_self r rest, hp.symm, hb⟩
          · obtain ⟨q, hq, h1, h2⟩ := ih hp
            exact ⟨q, List.mem_cons_of_mem r hq, h1, h2⟩
  · rw [apply_results_moved_dry mo rs] at h
    exact absurd h (List.not_mem_nil p)

theorem apply_results_moved_mem (mo : String → Bool)
    (rs : List ClassifyRecord) (r : ClassifyRecord)
    (hr : r ∈ rs) (hb : r.is_homework = true) (hm : mo r.path = true) :
    r.path ∈ (apply_results false mo rs).moved := by
  induction rs with
  | nil => simp at hr
  | cons q rest ih =>
      rcases List.mem_cons.mp hr with hq | hq
      · subst hq
        simp [apply_results, hb, hm]
      · cases hqb : q.is_homework <;> cases hqm : mo q.path <;>
          simp [apply_results, hqb, hqm, ih hq]

theorem classify_batch_length (l : List (String × ClassifierOutcome)) :
    (classify_batch l).length = l.length :=
  List.length_map l classify_one

theorem remaining_entries_nil (entries : List Candidate) :
    remaining_entries entries [] = entries :=
  List.filter_eq_self.mpr fun _ _ => rfl

/-! ### Shape lemmas for the three control paths of `organize_photos` -/

theorem organize_photos_abort (entries : List Candidate)
    (moveOk : String → Bool) (dry_run : Bool) :
    organize_photos false entries moveOk dry_run = ⟨none, false, [], []⟩ :=
  rfl

theorem organize_photos_no_images (entries : List Candidate)
    (moveOk : String → Bool) (dry_run : Bool)
    (h : get_image_files entries = []) :
    organize_photos true entries moveOk dry_run =
      ⟨some [("total", 0), ("homework", 0), ("regular", 0)], true, [], []⟩ := by
  simp [organize_photos, h]

theorem organize_photos_main (entries : List Candidate)
    (moveOk : String → Bool) (dry_run : Bool)
    (h : get_image_files entries ≠ []) :
    organize_photos true entries moveOk dry_run =
      { result := some
          [("total", (classify_batch ((get_image_files entries).map fun c =>
              (c.name, c.outcome))).length),
           ("homework", (apply_results dry_run moveOk (classify_batch
              ((get_image_files entries).map fun c => (c.name, c.outcome)))).homework),
           ("regular", (apply_results dry_run moveOk (classify_batch
              ((get_image_files entries).map fun c => (c.name, c.outcome)))).regular),
           ("errors", (apply_results dry_run moveOk (classify_batch
              ((get_image_files entries).map fun c => (c.name, c.outcome)))).errors)],
        destCreated := true,
        classified := (get_image_files entries).map (·.name),
        moved := (apply_results dry_run moveOk (classify_batch
          ((get_image_files entries).map fun c => (c.name, c.outcome)))).moved } := by
  have he : (get_image_files entries).isEmpty = false := by
    cases hgi : get_image_files entries with
    | nil => exact absurd hgi h
    | cons a t => rfl
  simp [organize_photos, he]

/-! ### Claim theorems: the Orchestration Engine -/

/-- Counterexample to C2: a run whose single candidate's classification
fails completes with `errors = 0` in the returned statistics — the
`errors` counter of `organize_photos` is only incremented on move
failures, so a classifier failure does not yield `errorCount ≥ 1`. -/
theorem C2_counterexample :
    (organize_photos true [⟨"a.jpg", true, ClassifierOutcome.failure⟩]
        (fun _ => true) false).result =
      some [("total", 1), ("homework", 0), ("regular", 1), ("errors", 0)] ∧
    classify_batch [("a.jpg", ClassifierOutcome.failure)] =
      [⟨"a.jpg", false, 0, "error"⟩] :=
  ⟨rfl, rfl⟩

/-- C2 (amended): a classifier failure on one of N candidates does not
abort the run: the run completes with `total = N` and (all moves
succeeding) `errors = 0` — classifier failures are folded into the
`regular` count, not the `errors` count — the failed candidate is recorded
with `isTarget = false`, confidence `0`, reason `"error"`, and every other
candidate still receives its Decision Engine verdict and, when verdicted
`isTarget = true` in this non-dry run, is moved. -/
theorem C2_amended_classifier_failure_isolated
    (entries : List Candidate) (moveOk : String → Bool) (f : Candidate)
    (hf : f ∈ get_image_files entries)
    (hfail : f.outcome = ClassifierOutcome.failure)
    (huniq : ∀ c ∈ get_image_files entries,
      c.outcome = ClassifierOutcome.failure → c = f)
    (hmo : ∀ p, moveOk p = true) :
    (∃ hw r, (organize_photos true entries moveOk false).result =
        some [("total", (get_image_files entries).length), ("homework", hw),
              ("regular", r), ("errors", 0)] ∧
        hw + r = (get_image_files entries).length) ∧
    (⟨f.name, false, 0, "error"⟩ : ClassifyRecord) ∈
      classify_batch ((get_image_files entries).map fun c => (c.name, c.outcome)) ∧
    ∀ c ∈ get_image_files entries, ∀ img, c.outcome = ClassifierOutcome.ok img →
      ∀ v, is_homework_related img (3/10) = some v →
        (⟨c.name, v.isTarget, v.confidence, v.reason⟩ : ClassifyRecord) ∈
          classify_batch ((get_image_files entries).map fun c => (c.name, c.outcome)) ∧
        (v.isTarget = true →
          c.name ∈ (organize_photos true entries moveOk false).moved) := by
  have hne : get_image_files entries ≠ [] := List.ne_nil_of_mem hf
  have horg := organize_photos_main entries moveOk false hne
  set gi := get_image_files entries with hgi
  set rs := classify_batch (gi.map fun c => (c.name, c.outcome)) with hrs
  have hlen : rs.length = gi.length := by
    rw [hrs, classify_batch_length, List.length_map]
  refine ⟨⟨(apply_results false moveOk rs).homework,
           (apply_results false moveOk rs).regular, ?_, ?_⟩, ?_, ?_⟩
  · rw [horg, apply_results_errors_zero false moveOk rs hmo, hlen]
  · rw [apply_results_homework_add_regular false moveOk rs, hlen]
  · have h1 : (f.name, f.outcome) ∈ gi.map fun c => (c.name, c.outcome) :=
      List.mem_map_of_mem _ hf
    have h2 : classify_one (f.name, f.outcome) ∈ rs :=
      List.mem_map_of_mem classify_one h1
    rw [hfail] at h2
    exact h2
  · intro c hc img himg v hv
    have h1 : (c.name, c.outcome) ∈ gi.map fun c => (c.name, c.outcome) :=
      List.mem_map_of_mem _ hc
    have h2 : classify_one (c.name, c.outcome) ∈ rs :=
      List.mem_map_of_mem classify_one h1
    have hco : classify_one (c.name, c.outcome) =
        ⟨c.name, v.isTarget, v.confidence, v.reason⟩ := by
      rw [himg]
      simp [classify_one, hv]
    refine ⟨hco ▸ h2, ?_⟩
    intro htarget
    rw [horg]
    exact apply_results_moved_mem moveOk rs _ (hco ▸ h2) htarget (hmo c.name)

/-- Witness for C2 (amended): two candidates, the second failing; the
first ("a.jpg", top-1 label "notebook") is verdicted target and moved. -/
theorem C2_witness :
    (∃ hw r, (organize_photos true
        [⟨"a.jpg", true, ClassifierOutcome.ok ⟨[⟨"notebook", 1⟩], none⟩⟩,
         ⟨"b.png", true, ClassifierOutcome.failure⟩] (fun _ => true) false).result =
        some [("total", (get_image_files
            [⟨"a.jpg", true, ClassifierOutcome.ok ⟨[⟨"notebook", 1⟩], none⟩⟩,
             ⟨"b.png", true, ClassifierOutcome.failure⟩]).length),
          ("homework", hw), ("regular", r), ("errors", 0)] ∧
        hw + r = (get_image_files
            [⟨"a.jpg", true, ClassifierOutcome.ok ⟨[⟨"notebook", 1⟩], none⟩⟩,
             ⟨"b.png", true, ClassifierOutcome.failure⟩]).length) ∧
    (⟨"b.png", false, 0, "error"⟩ : ClassifyRecord) ∈
      classify_batch ((get_image_files
          [⟨"a.jpg", true, ClassifierOutcome.ok ⟨[⟨"notebook", 1⟩], none⟩⟩,
           ⟨"b.png", true, ClassifierOutcome.failure⟩]).map fun c =>
        (c.name, c.outcome)) ∧
    "a.jpg" ∈ (organize_photos true
        [⟨"a.jpg", true, ClassifierOutcome.ok ⟨[⟨"notebook", 1⟩], none⟩⟩,
         ⟨"b.png", true, ClassifierOutcome.failure⟩] (fun _ => true) false).moved := by
  have h := C2_amended_classifier_failure_isolated
    [⟨"a.jpg", true, ClassifierOutcome.ok ⟨[⟨"notebook", 1⟩], none⟩⟩,
     ⟨"b.png", true, ClassifierOutcome.failure⟩]
    (fun _ => true) ⟨"b.png", true, ClassifierOutcome.failure⟩
    (by decide) rfl (by decide) (fun _ => rfl)
  refine ⟨h.1, h.2.1, ?_⟩
  exact (h.2.2 ⟨"a.jpg", true, ClassifierOutcome.ok ⟨[⟨"notebook", 1⟩], none⟩⟩
    (by decide) ⟨[⟨"notebook", 1⟩], none⟩ rfl ⟨true, 1, "notebook"⟩ rfl).2 rfl

/-- Counterexample to C5: a completed run over a source directory with no
supported image files returns three-key statistics, without the
`errorCount` field the claim requires of every completed run. -/
theorem C5_counterexample :
    (organize_photos true [] (fun _ => true) false).result =
      some [("total", 0), ("homework", 0), ("regular", 0)] ∧
    "errors" ∉ ([("total", 0), ("homework", 0), ("regular", 0)] :
      List (String × Nat)).map Prod.fst :=
  ⟨rfl, by decide⟩

/-- C5 (amended): every completed run returns statistics beginning
`total, homework, regular` with `total = homework + regular`; runs with at
least one candidate additionally carry the fourth `errors` count (errors
are move failures, already counted once inside `homework`, not
double-subtracted — `total = homework + regular` holds regardless of
`errors`). -/
theorem C5_amended_total_split
    (sourceExists : Bool) (entries : List Candidate)
    (moveOk : String → Bool) (dry_run : Bool) (l : List (String × Nat))
    (h : (organize_photos sourceExists entries moveOk dry_run).result = some l) :
    (∃ t hw r rest, l = ("total", t) :: ("homework", hw) :: ("regular", r) :: rest ∧
      t = hw + r) ∧
    (get_image_files entries ≠ [] →
      ∃ t hw r e, l = [("total", t), ("homework", hw), ("regular", r), ("errors", e)] ∧
        t = hw + r) := by
  cases sourceExists
  · rw [organize_photos_abort] at h
    exact absurd h (by simp)
  · by_cases hne : get_image_files entries = []
    · rw [organize_photos_no_images entries moveOk dry_run hne] at h
      have hl := Option.some.inj h
      subst hl
      exact ⟨⟨0, 0, 0, [], rfl, rfl⟩, fun hcon => absurd hne hcon⟩
    · rw [organize_photos_main entries moveOk dry_run hne] at h
      have hl := Option.some.inj h
      subst hl
      have hsplit := apply_results_homework_add_regular dry_run moveOk
        (classify_batch ((get_image_files entries).map fun c => (c.name, c.outcome)))
      exact ⟨⟨_, _, _, _, rfl, hsplit.symm⟩, fun _ => ⟨_, _, _, _, rfl, hsplit.symm⟩⟩

/-- Witness for C5 (amended): a one-candidate run whose statistics are
`total 1 = homework 0 + regular 1`. -/
theorem C5_witness :
    (organize_photos true [⟨"a.jpg", true, ClassifierOutcome.failure⟩]
        (fun _ => true) false).result =
      some [("total", 1), ("homework", 0), ("regular", 1), ("errors", 0)] ∧
    (∃ t hw r rest,
      ([("total", 1), ("homework", 0), ("regular", 1), ("errors", 0)] :
        List (String × Nat)) =
          ("total", t) :: ("homework", hw) :: ("regular", r) :: rest ∧
      t = hw + r) :=
  ⟨rfl, (C5_amended_total_split true [⟨"a.jpg", true, ClassifierOutcome.failure⟩]
    (fun _ => true) false _ rfl).1⟩

/-- C6: a dry run moves nothing — every original entry is still present
afterwards — and, for any run, every moved file corresponds to a
candidate whose classification record has `is_homework = true` in a
non-dry run; `isTarget = false` candidates are never moved. -/
theorem C6_dry_run_never_moves
    (sourceExists : Bool) (entries : List Candidate)
    (moveOk : String → Bool) (dry_run : Bool) :
    (dry_run = true →
      (organize_photos sourceExists entries moveOk dry_run).moved = [] ∧
      remaining_entries entries
        (organize_photos sourceExists entries moveOk dry_run).moved = entries) ∧
    (∀ p ∈ (organize_photos sourceExists entries moveOk dry_run).moved,
      dry_run = false ∧
      ∃ r ∈ classify_batch ((get_image_files entries).map fun c =>
          (c.name, c.outcome)),
        r.path = p ∧ r.is_homework = true) := by
  have hcases : (organize_photos sourceExists entries moveOk dry_run).moved = [] ∨
      (organize_photos sourceExists entries moveOk dry_run).moved =
        (apply_results dry_run moveOk (classify_batch
          ((get_image_files entries).map fun c => (c.name, c.outcome)))).moved := by
    cases sourceExists
    · exact Or.inl rfl
    · by_cases hne : get_image_files entries = []
      · rw [organize_photos_no_images entries moveOk dry_run hne]
        exact Or.inl rfl
      · rw [organize_photos_main entries moveOk dry_run hne]
        exact Or.inr rfl
  constructor
  · intro hd
    subst hd
    rcases hcases with h | h
    · rw [h]
      exact ⟨rfl, remaining_entries_nil entries⟩
    · rw [h, apply_results_moved_dry]
      exact ⟨rfl, remaining_entries_nil entries⟩
  · intro p hp
    rcases hcases with h | h
    · rw [h] at hp
      exact absurd hp (List.not_mem_nil p)
    · rw [h] at hp
      exact apply_results_moved_sub dry_run moveOk _ p hp

/-- Witness for C6: a concrete dry run moves nothing. -/
theorem C6_witness :
    (organize_photos true [⟨"a.jpg", true, ClassifierOutcome.failure⟩]
        (fun _ => true) true).moved = [] :=
  ((C6_dry_run_never_moves true [⟨"a.jpg", true, ClassifierOutcome.failure⟩]
    (fun _ => true) true).1 rfl).1

/-- C7: a run on a missing source directory aborts: the returned value is
`none` (no statistics), the destination directory is not created, the
classifier is never invoked, and nothing is moved. -/
theorem C7_missing_source_aborts (entries : List Candidate)
    (moveOk : String → Bool) (dry_run : Bool) :
    (organize_photos false entries moveOk dry_run).result = none ∧
    (organize_photos false entries moveOk dry_run).destCreated = false ∧
    (organize_photos false entries moveOk dry_run).classified = [] ∧
    (organize_photos false entries moveOk dry_run).moved = [] :=
  ⟨rfl, rfl, rfl, rfl⟩

/-- C10: when the source directory exists but yields no supported image
files, the run returns the three-key statistics
`{"total": 0, "homework": 0, "regular": 0}` — with no `errors` key — and
the classifier is never invoked. -/
theorem C10_no_candidates_three_key_stats (entries : List Candidate)
    (moveOk : String → Bool) (dry_run : Bool)
    (h : get_image_files entries = []) :
    (organize_photos true entries moveOk dry_run).result =
      some [("total", 0), ("homework", 0), ("regular", 0)] ∧
    (organize_photos true entries moveOk dry_run).classified = [] ∧
    ∀ l, (organize_photos true entries moveOk dry_run).result = some l →
      "errors" ∉ l.map Prod.fst := by
  rw [organize_photos_no_images entries moveOk dry_run h]
  refine ⟨rfl, rfl, ?_⟩
  intro l hl
  obtain rfl := Option.some.inj hl
  decide

/-- Witness for C10: a source directory holding one non-image file. -/
theorem C10_witness :
    get_image_files [⟨"notes.txt", true, ClassifierOutcome.failure⟩] = [] ∧
    (organize_photos true [⟨"notes.txt", true, ClassifierOutcome.failure⟩]
        (fun _ => true) false).result =
      some [("total", 0), ("homework", 0), ("regular", 0)] ∧
    (organize_photos true [⟨"notes.txt", true, ClassifierOutcome.failure⟩]
        (fun _ => true) false).classified = [] :=
  ⟨by decide,
    (C10_no_candidates_three_key_stats
      [⟨"notes.txt", true, ClassifierOutcome.failure⟩]
      (fun _ => true) false (by decide)).1,
    (C10_no_candidates_three_key_stats
      [⟨"notes.txt", true, ClassifierOutcome.failure⟩]
      (fun _ => true) false (by decide)).2.1⟩

end PhotoOrganizer
